import Mathlib

/-!
Verification development for the EmailMax IMAP/SMTP validation microservice
(`imap-smtp-validator/app.py`, `imap-smtp-validator/imap_error_diagnostic.py`,
`imap-smtp-validator/imap_diagnostic_endpoint.py`).

The Python code is shallowly embedded: pure string manipulation is translated
to executable Lean functions over `String`/`List Char` (ASCII case folding, as
all pattern tables are ASCII), Python exceptions are modelled by a value type
`PyErr` carrying the exception class and its string representation, the CPython
exception-class hierarchy relevant to the `isinstance` checks is modelled by
`pyMro`, and the network drivers are modelled as functions of an explicit
"world" record that fixes the outcome of every external call (DNS lookup, TCP
connect, protocol handshake, login, listing, logout), together with a trace of
the resource-handling actions they perform.
-/

/-! ## Python string primitives (ASCII semantics, executable) -/

/-- ASCII lower-casing of one character, as Python's `str.lower` acts on ASCII. -/
def pyLowerChar (c : Char) : Char :=
  if 65 ≤ c.toNat ∧ c.toNat ≤ 90 then Char.ofNat (c.toNat + 32) else c

/-- ASCII upper-casing of one character, as Python's `str.upper` acts on ASCII. -/
def pyUpperChar (c : Char) : Char :=
  if 97 ≤ c.toNat ∧ c.toNat ≤ 122 then Char.ofNat (c.toNat - 32) else c

/-- Python `s.lower()` restricted to ASCII case folding. -/
def pyLower (s : String) : String := ⟨s.data.map pyLowerChar⟩

/-- Python `s.capitalize()`: first character upper-cased, the rest lower-cased. -/
def pyCapitalize (s : String) : String :=
  match s.data with
  | [] => ""
  | c :: rest => ⟨pyUpperChar c :: rest.map pyLowerChar⟩

/-- Contiguous-sublist test on character lists (helper for Python's `in`). -/
def pyInfixList (pat : List Char) : List Char → Bool
  | [] => pat.isEmpty
  | c :: rest => pat.isPrefixOf (c :: rest) || pyInfixList pat rest

/-- Python `pat in s`: substring containment. -/
def pyIn (pat s : String) : Bool := pyInfixList pat.data s.data

/-- Fuel-driven worker for `pySplit` (fuel bounds the number of scanning steps,
so the recursion is structural and kernel-evaluable). -/
def pySplitAux (sep : List Char) : Nat → List Char → List Char → List (List Char)
  | _, [], acc => [acc.reverse]
  | 0, s, acc => [acc.reverse ++ s]
  | fuel + 1, c :: rest, acc =>
    if sep.isPrefixOf (c :: rest) then
      acc.reverse :: pySplitAux sep fuel ((c :: rest).drop sep.length) []
    else
      pySplitAux sep fuel rest (c :: acc)

/-- Python `s.split(sep)` for a non-empty separator: left-to-right,
non-overlapping occurrences. -/
def pySplit (s sep : String) : List String :=
  (pySplitAux sep.data (s.data.length + 1) s.data []).map (fun l => ⟨l⟩)

/-- Python `s.strip(ch)` for a single strip character: remove every copy of
`ch` from both ends. -/
def pyStripChar (s : String) (ch : Char) : String :=
  ⟨((s.data.dropWhile (· == ch)).reverse.dropWhile (· == ch)).reverse⟩

/-- The double-quote character (used by the mailbox-name parser). -/
def quoteChar : Char := Char.ofNat 34

/-- Python truthiness of an optional string: `None` and `""` are falsy. -/
def pyTruthy : Option String → Bool
  | none => false
  | some s => s != ""

/-- Python string interpolation of an optional string: `None` prints as "None". -/
def pyOptStr : Option String → String
  | none => "None"
  | some s => s

/-! ## Python exception model -/

/-- The exception classes distinguished by the validator's `isinstance`
dispatch: `imaplib.IMAP4.error`, `ssl.SSLError`, `socket.timeout`,
`ConnectionRefusedError`, `ConnectionError`, `OSError` (the class aliased by
`socket.error`), `smtplib.SMTPAuthenticationError`, `smtplib.SMTPException`,
and a generic `Exception`. -/
inductive PyExcClass where
  | imap4Error
  | sslError
  | socketTimeout
  | connectionRefusedError
  | connectionError
  | osError
  | smtpAuthenticationError
  | smtpException
  | generic
  deriving DecidableEq

/-- Reflexive-transitive superclass chain of each class, following CPython:
`ConnectionRefusedError ⊆ ConnectionError ⊆ OSError`, `ssl.SSLError ⊆ OSError`,
`socket.timeout ⊆ OSError`, `SMTPAuthenticationError ⊆ SMTPException ⊆ OSError`,
and everything is an `Exception`.  `socket.error` is an alias of `OSError`. -/
def pyMro : PyExcClass → List PyExcClass
  | .imap4Error => [.imap4Error, .generic]
  | .sslError => [.sslError, .osError, .generic]
  | .socketTimeout => [.socketTimeout, .osError, .generic]
  | .connectionRefusedError => [.connectionRefusedError, .connectionError, .osError, .generic]
  | .connectionError => [.connectionError, .osError, .generic]
  | .osError => [.osError, .generic]
  | .smtpAuthenticationError => [.smtpAuthenticationError, .smtpException, .osError, .generic]
  | .smtpException => [.smtpException, .osError, .generic]
  | .generic => [.generic]

/-- Python `isinstance(e, target)` on the modelled classes. -/
def pyIsInstance (c target : PyExcClass) : Bool := (pyMro c).contains target

/-- The `__name__` of each modelled class (used in `detalhes_tecnicos`). -/
def pyClassName : PyExcClass → String
  | .imap4Error => "error"
  | .sslError => "SSLError"
  | .socketTimeout => "timeout"
  | .connectionRefusedError => "ConnectionRefusedError"
  | .connectionError => "ConnectionError"
  | .osError => "OSError"
  | .smtpAuthenticationError => "SMTPAuthenticationError"
  | .smtpException => "SMTPException"
  | .generic => "Exception"

/-- A Python exception value: its class, its `str(...)` representation, and the
`smtp_code` attribute carried by SMTP response errors. -/
structure PyErr where
  cls : PyExcClass
  msg : String
  code : Option Int
  deriving DecidableEq

/-- The runtime faults the diagnostic module itself can raise (`host.lower()`
on `None` raises `AttributeError`). -/
inductive PyFault where
  | attributeError
  deriving DecidableEq

/-! ## imap_error_diagnostic.py: pattern table and classifier -/

/-- The ordered pattern table `ERROR_PATTERNS` of `imap_error_diagnostic.py`
(lines 199-227).  Each regex is a case-insensitive alternation of literal
fragments; it is modelled as the list of its lower-cased alternatives, matched
by substring containment against the lower-cased error text. -/
def ERROR_PATTERNS : List (List String × String) :=
  [ (["authenticate failed"], "authentication"),
    (["login failed"], "authentication"),
    (["invalid credentials"], "credentials"),
    (["password"], "credentials"),
    (["application-specific password"], "app_password"),
    (["certificate"], "ssl_certificate"),
    (["ssl", "tls", "starttls"], "ssl_connection"),
    (["timeout"], "timeout"),
    (["too many simultaneous"], "rate_limit"),
    (["connection refused"], "connection_refused"),
    (["socket"], "socket"),
    (["web login"], "web_login_required"),
    (["limit/max_conn"], "connection_limit"),
    (["sys/temp_fail"], "temporary_failure"),
    (["denied", "prohibited", "disallowed"], "access_denied"),
    (["blocked", "block"], "blocked"),
    (["throttl"], "throttled"),
    (["banned"], "banned") ]

/-- The error kinds the classifier can produce (spec section 7 taxonomy). -/
def ERROR_KINDS : List String :=
  [ "authentication", "credentials", "app_password", "ssl_certificate",
    "ssl_connection", "timeout", "rate_limit", "connection_refused", "socket",
    "web_login_required", "connection_limit", "temporary_failure",
    "access_denied", "blocked", "throttled", "banned", "imap_protocol",
    "ssl_error", "socket_error", "unknown" ]

/-- `classificar_erro_imap` (imap_error_diagnostic.py lines 245-268): first
matching entry of the ordered pattern table wins; if none matches, fall back to
`isinstance` dispatch over the error's runtime class; otherwise "unknown".
The `host`/`email` parameters are accepted and ignored, as in the source. -/
def classificar_erro_imap (erro : PyErr) (_host _email : Option String) : String :=
  let erro_str := pyLower erro.msg
  match ERROR_PATTERNS.find? (fun pe => pe.1.any (fun alt => pyIn alt erro_str)) with
  | some pe => pe.2
  | none =>
    if pyIsInstance erro.cls .imap4Error then "imap_protocol"
    else if pyIsInstance erro.cls .sslError then "ssl_error"
    else if pyIsInstance erro.cls .socketTimeout then "timeout"
    else if pyIsInstance erro.cls .osError then "socket_error"
    else if pyIsInstance erro.cls .connectionRefusedError then "connection_refused"
    else "unknown"

/-! ## imap_error_diagnostic.py: per-provider error catalogs -/

/-- One entry of a provider catalog: cause text and ordered solution list. -/
structure CatalogEntry where
  causa : String
  solucao : List String
  deriving DecidableEq

/-- The `GMAIL_ERRORS` catalog (imap_error_diagnostic.py lines 20-61), in the
source's insertion order. -/
def GMAIL_ERRORS : List (String × CatalogEntry) :=
  [ ("AUTHENTICATE failed",
     ⟨"Falha na autenticação com o Gmail",
      [ "Verifique se a 'Verificação em duas etapas' está ativada e se você está usando uma senha de aplicativo",
        "Verifique se a opção 'Permitir aplicativos menos seguros' está ativada (se aplicável)",
        "Confirme que o email e senha estão corretos" ]⟩),
    ("Invalid credentials",
     ⟨"Credenciais inválidas para o Gmail",
      [ "Para contas com autenticação de dois fatores: use uma senha de aplicativo",
        "Verifique se o formato da senha de app é correto (16 caracteres em grupos de 4)",
        "Tente gerar uma nova senha de aplicativo" ]⟩),
    ("Application-specific password required",
     ⟨"Senha de aplicativo necessária para o Gmail",
      [ "Acesse sua conta Google > Segurança > Senhas de app > Gere uma nova senha",
        "Use o formato exato fornecido pelo Google (xxxx xxxx xxxx xxxx)",
        "Para mais informações: https://support.google.com/accounts/answer/185833" ]⟩),
    ("Web login required",
     ⟨"Login via navegador necessário para o Gmail",
      [ "Faça login através de um navegador para confirmar a identidade",
        "Verifique se há alguma notificação de segurança pendente na sua conta Google",
        "Após o login no navegador, espere alguns minutos e tente novamente" ]⟩),
    ("Too many simultaneous connections",
     ⟨"Muitas conexões simultâneas ao Gmail",
      [ "Feche outras aplicações que possam estar usando IMAP com esta conta",
        "Espere alguns minutos antes de tentar novamente",
        "O Gmail limita a 15 conexões IMAP simultâneas por conta" ]⟩) ]

/-- The `OUTLOOK_ERRORS` catalog (lines 63-86). -/
def OUTLOOK_ERRORS : List (String × CatalogEntry) :=
  [ ("AUTHENTICATE failed",
     ⟨"Falha na autenticação com o servidor Outlook/Office 365",
      [ "Verifique se MFA está ativado e use uma senha de aplicativo",
        "Confirme que o email e senha estão corretos",
        "Verifique as configurações de segurança da sua conta Microsoft" ]⟩),
    ("SYS/TEMP_FAIL",
     ⟨"Falha temporária no servidor Outlook/Office 365",
      [ "Esta é uma falha temporária do servidor. Tente novamente em alguns minutos",
        "Verifique o status dos serviços Microsoft: https://portal.office.com/servicestatus" ]⟩),
    ("LIMIT/MAX_CONN",
     ⟨"Limite de conexões atingido no Outlook/Office 365",
      [ "Feche outras aplicações que possam estar usando IMAP com esta conta",
        "Espere alguns minutos antes de tentar novamente" ]⟩) ]

/-- The `YAHOO_ERRORS` catalog (lines 88-105). -/
def YAHOO_ERRORS : List (String × CatalogEntry) :=
  [ ("AUTHENTICATE failed",
     ⟨"Falha na autenticação com o Yahoo Mail",
      [ "Verifique se 'Permitir apps que usam login menos seguro' está ativado",
        "Utilize uma senha de aplicativo se tiver verificação em duas etapas ativada",
        "Acesse as configurações de segurança da sua conta Yahoo" ]⟩),
    ("LOGIN failed",
     ⟨"Login falhou no Yahoo Mail",
      [ "O Yahoo pode exigir senhas de aplicativo. Gere uma em sua conta",
        "Verifique as configurações de segurança em account.yahoo.com",
        "Confirme se a conta não está bloqueada por tentativas de login suspeitas" ]⟩) ]

/-- The `GENERIC_ERRORS` catalog (lines 107-196). -/
def GENERIC_ERRORS : List (String × CatalogEntry) :=
  [ ("AUTHENTICATE failed",
     ⟨"Falha na autenticação com o servidor de email",
      [ "Verifique se o email e senha estão corretos",
        "Verifique se a autenticação de dois fatores está ativada e se necessita de senha de app",
        "Alguns provedores podem bloquear aplicativos de terceiros por segurança" ]⟩),
    ("LOGIN failed",
     ⟨"Falha no login IMAP",
      [ "Verifique se o email e senha estão corretos",
        "Confirme se o servidor IMAP está correto para seu provedor",
        "Verifique configurações de segurança da sua conta de email" ]⟩),
    ("STARTTLS",
     ⟨"Problema na inicialização de conexão segura STARTTLS",
      [ "Verifique se o servidor suporta STARTTLS",
        "Tente usar uma conexão SSL/TLS direta (porta 993) ao invés de STARTTLS",
        "Pode haver um problema de certificado com o servidor" ]⟩),
    ("socket error",
     ⟨"Erro de conexão de rede",
      [ "Verifique sua conexão com a internet",
        "Confirme se o host e porta do servidor IMAP estão corretos",
        "Verifique se seu provedor não está bloqueando conexões" ]⟩),
    ("connection refused",
     ⟨"Conexão recusada pelo servidor",
      [ "Verifique se o servidor IMAP está online",
        "Confirme se o host e porta estão corretos",
        "Alguns provedores podem bloquear tentativas de conexão de certos IPs" ]⟩),
    ("CONNECTION",
     ⟨"Problema de conexão com o servidor IMAP",
      [ "Verifique sua conexão com a internet",
        "Confirme se o host e porta do servidor IMAP estão corretos",
        "O servidor pode estar temporariamente indisponível" ]⟩),
    ("timeout",
     ⟨"Tempo limite excedido na conexão IMAP",
      [ "Verifique sua conexão com a internet",
        "O servidor pode estar com alta carga ou não responder",
        "Tente novamente mais tarde ou use um timeout maior" ]⟩),
    ("SSL",
     ⟨"Problema na conexão SSL/TLS",
      [ "Verifique se o servidor suporta SSL/TLS na porta configurada",
        "Pode haver um problema com o certificado do servidor",
        "Tente usar uma porta diferente ou configuração SSL diferente" ]⟩),
    ("certificate",
     ⟨"Problema com certificado SSL do servidor",
      [ "O certificado do servidor pode estar expirado ou inválido",
        "Em ambiente de desenvolvimento, você pode tentar desabilitar verificação de certificado",
        "Em produção, verifique se o servidor tem um certificado válido" ]⟩),
    ("revocation",
     ⟨"Verificação de revogação de certificado SSL falhou",
      [ "Problemas com OCSP (Online Certificate Status Protocol)",
        "Pode ser necessário desativar a verificação de revogação em ambiente de teste",
        "Em produção, confirme que o certificado do servidor é válido" ]⟩),
    ("Too many simultaneous connections",
     ⟨"Muitas conexões IMAP simultâneas",
      [ "Feche outras aplicações que possam estar usando IMAP com esta conta",
        "Espere alguns minutos antes de tentar novamente",
        "A maioria dos provedores limita o número de conexões por conta" ]⟩) ]

/-- `obter_catalogo_provedor` (lines 270-281). -/
def obter_catalogo_provedor (provedor : String) : List (String × CatalogEntry) :=
  if provedor = "gmail" then GMAIL_ERRORS
  else if provedor = "outlook" then OUTLOOK_ERRORS
  else if provedor = "yahoo" then YAHOO_ERRORS
  else GENERIC_ERRORS

/-! ## imap_error_diagnostic.py: provider identification and diagnosis -/

/-- Body of `identificar_provedor` (lines 229-243), once `host` is known to be
an actual string `h`.  The email's domain is `email.split('@')[-1].lower()`
when `email` is truthy, `""` otherwise. -/
def identificar_provedor_core (h : String) (email : Option String) : String :=
  let host := pyLower h
  let domain :=
    match email with
    | none => ""
    | some e => if e = "" then "" else pyLower ((pySplit e "@").getLastD "")
  if pyIn "gmail" host || pyIn "google" host || pyIn "gmail" domain then
    "gmail"
  else if pyIn "outlook" host || pyIn "office365" host || pyIn "hotmail" host
      || pyIn "live" host
      || ([ "outlook.com", "hotmail.com", "live.com", "office365.com",
            "microsoft.com" ].any (fun d => pyIn d domain)) then
    "outlook"
  else if pyIn "yahoo" host || pyIn "yahoo" domain then
    "yahoo"
  else
    "generic"

/-- `identificar_provedor` (lines 229-243).  Its first statement is
`host = host.lower()`, which raises `AttributeError` when `host` is `None`. -/
def identificar_provedor (host email : Option String) : Except PyFault String :=
  match host with
  | none => Except.error PyFault.attributeError
  | some h => Except.ok (identificar_provedor_core h email)

/-- The structured diagnosis dictionary built by `diagnosticar_erro_imap`
(lines 332-359): original text, classified kind, provider, cause, solutions,
the error's class name, and the three kind-specific detail blocks. -/
structure Diagnostico where
  erro_original : String
  tipo_erro : String
  provedor : String
  causa : String
  solucoes : List String
  classe_erro : String
  authentication_details : Option (Bool × Bool)
  ssl_details : Option (Bool × Bool)
  connection_details : Option (Bool × Bool)
  deriving DecidableEq

/-- Catalog scan of `diagnosticar_erro_imap` (lines 305-310): first entry whose
lower-cased signature is a substring of the lower-cased error text. -/
def lookup_catalogo (catalogo : List (String × CatalogEntry)) (erro_str : String) :
    Option CatalogEntry :=
  (catalogo.find? (fun pe => pyIn (pyLower pe.1) (pyLower erro_str))).map Prod.snd

/-- The default diagnosis synthesized when no catalog entry matches
(lines 321-329). -/
def DIAGNOSTICO_GENERICO : CatalogEntry :=
  ⟨"Erro IMAP não classificado",
   [ "Verifique se as credenciais estão corretas",
     "Confirme as configurações do servidor IMAP (host, porta, SSL/TLS)",
     "Verifique sua conexão com a internet" ]⟩

/-- Body of `diagnosticar_erro_imap` (lines 283-360) after the provider has
been determined: provider catalog scan, generic-catalog retry when the
provider is not "generic", default diagnosis, and assembly of the result. -/
def diagnosticar_com_provedor (erro : PyErr) (provedor : String) : Diagnostico :=
  let erro_str := erro.msg
  let erro_type := classificar_erro_imap erro none none
  let catalogo := obter_catalogo_provedor provedor
  let d0 := lookup_catalogo catalogo erro_str
  let d1 :=
    match d0 with
    | some d => some d
    | none => if provedor ≠ "generic" then lookup_catalogo GENERIC_ERRORS erro_str else none
  let diagnostico := d1.getD DIAGNOSTICO_GENERICO
  { erro_original := erro_str
    tipo_erro := erro_type
    provedor := provedor
    causa := diagnostico.causa
    solucoes := diagnostico.solucao
    classe_erro := pyClassName erro.cls
    authentication_details :=
      if erro_type = "authentication" then
        some (pyIn "app_password" (pyLower erro_str) || provedor == "gmail", true)
      else none
    ssl_details :=
      if erro_type = "ssl_error" then
        some (pyIn "certificate" (pyLower erro_str), true)
      else none
    connection_details :=
      if erro_type = "connection_refused" then some (true, true) else none }

/-- `diagnosticar_erro_imap` (lines 283-360): the provider is identified only
when `host` or `email` is truthy, otherwise it defaults to "generic"; the
identification itself raises `AttributeError` when `host` is `None`. -/
def diagnosticar_erro_imap (erro : PyErr) (host email : Option String) :
    Except PyFault Diagnostico :=
  match (if pyTruthy host || pyTruthy email then identificar_provedor host email
         else Except.ok "generic") with
  | Except.error f => Except.error f
  | Except.ok provedor => Except.ok (diagnosticar_com_provedor erro provedor)

/-- One supplementary common-issue hint of `verificar_erro_comum`. -/
structure ProblemaComum where
  tipo : String
  mensagem : String
  solucao : String
  deriving DecidableEq

/-- `verificar_erro_comum` (lines 362-406); `none` models the
`{"problema_comum": False}` dictionary. -/
def verificar_erro_comum (host : Option String) (erro_str : String) :
    Option ProblemaComum :=
  let erro_lower := pyLower erro_str
  if pyIn "certificate" erro_lower && pyIn "verify" erro_lower then
    some ⟨"certificado_ssl", "Problema de verificação de certificado SSL",
          "Em ambiente de desenvolvimento, você pode desabilitar temporariamente a verificação de certificado"⟩
  else if (pyIn "access" erro_lower && pyIn "denied" erro_lower) || pyIn "blocked" erro_lower then
    some ⟨"bloqueio_acesso", "Possível bloqueio de acesso por região ou IP",
          "Alguns provedores bloqueiam acessos de determinadas regiões ou IPs. Tente usar um proxy ou VPN."⟩
  else if pyIn "too many" erro_lower || pyIn "rate" erro_lower || pyIn "limit" erro_lower then
    some ⟨"rate_limiting", "Limite de taxa de conexões atingido",
          "Reduza o número de tentativas ou aguarde alguns minutos antes de tentar novamente"⟩
  else if pyIn "resolve" erro_lower || pyIn "dns" erro_lower then
    some ⟨"problema_dns", "Problema de resolução DNS para o servidor",
          "Verifique se o host '" ++ pyOptStr host ++ "' está correto e pode ser resolvido pela rede"⟩
  else
    none

/-- `gerar_mensagem_amigavel` (lines 408-445): kind-keyed friendly-message
templates, with Gmail-specific phrasing for the "credentials" kind. -/
def gerar_mensagem_amigavel (d : Diagnostico) : String :=
  let tipo_erro := d.tipo_erro
  let provedor := pyCapitalize d.provedor
  if tipo_erro = "authentication" then
    "Erro de autenticação com " ++ provedor ++ ": " ++ d.causa
      ++ ". Verifique suas credenciais e configurações de segurança da conta."
  else if tipo_erro = "credentials" then
    if provedor = "Gmail" then
      "Credenciais inválidas para " ++ provedor
        ++ ". Se você usa autenticação de dois fatores, certifique-se de usar uma senha de aplicativo no formato correto (xxxx xxxx xxxx xxxx)."
    else
      "Credenciais inválidas para " ++ provedor ++ ". Verifique seu email e senha."
  else if tipo_erro = "app_password" then
    "É necessário usar uma senha de aplicativo para " ++ provedor
      ++ ". Ative a verificação em duas etapas e crie uma senha de aplicativo específica."
  else if tipo_erro = "ssl_connection" then
    "Erro na conexão segura com " ++ provedor
      ++ ". Verifique as configurações SSL/TLS e a porta do servidor."
  else if tipo_erro = "timeout" then
    "Tempo limite excedido ao conectar com " ++ provedor
      ++ ". Verifique sua conexão de internet ou tente novamente mais tarde."
  else if tipo_erro = "connection_refused" then
    "Conexão recusada pelo servidor " ++ provedor
      ++ ". Verifique se o servidor está online e se as configurações de host e porta estão corretas."
  else
    "Erro ao conectar com " ++ provedor ++ ": " ++ d.causa
      ++ ". Verifique as configurações e tente novamente."

/-- The client-facing error structure built by `sanitizar_erro_imap`
(lines 470-486). -/
structure Sanitized where
  error_type : String
  message : String
  solutions : List String
  provider : String
  error_class : String
  common_issue : Option (String × String)
  deriving DecidableEq

/-- Assembly step of `sanitizar_erro_imap` from an already-computed diagnosis
(lines 464-486). -/
def sanitizar_core (erro : PyErr) (host : Option String) (d : Diagnostico) : Sanitized :=
  let erro_comum := verificar_erro_comum host erro.msg
  let mensagem := gerar_mensagem_amigavel d
  { error_type := d.tipo_erro
    message := mensagem
    solutions := d.solucoes
    provider := d.provedor
    error_class := d.classe_erro
    common_issue := erro_comum.map (fun pc => (pc.tipo, pc.solucao)) }

/-- `sanitizar_erro_imap` (lines 448-488): diagnose, check for a common issue,
generate the friendly message, and assemble the response. -/
def sanitizar_erro_imap (erro : PyErr) (host email : Option String) :
    Except PyFault Sanitized :=
  match diagnosticar_erro_imap erro host email with
  | Except.error f => Except.error f
  | Except.ok d => Except.ok (sanitizar_core erro host d)

/-- `sanitizar_erro_imap` as called from the connection drivers, where `host`
and `email` are plain strings and the call therefore cannot raise. -/
def sanitizar_str (erro : PyErr) (h email : String) : Sanitized :=
  let provedor :=
    if pyTruthy (some h) || pyTruthy (some email) then identificar_provedor_core h (some email)
    else "generic"
  sanitizar_core erro (some h) (diagnosticar_com_provedor erro provedor)

/-! ## app.py: provider auto-detection -/

/-- One endpoint dictionary of `KNOWN_PROVIDERS` (app.py lines 81-101); the
`secure` and `starttls` keys are optional in the source dictionaries. -/
structure EndpointConfig where
  host : String
  port : Nat
  secure : Option Bool
  starttls : Option Bool
  deriving DecidableEq

/-- One provider profile of `KNOWN_PROVIDERS`/`detect_provider_config`. -/
structure ProviderConfig where
  imap : EndpointConfig
  smtp : EndpointConfig
  password_pattern : Option String
  password_instructions : Option String
  detected : Option String
  deriving DecidableEq

/-- `KNOWN_PROVIDERS['gmail']` (app.py lines 82-87). -/
def KNOWN_PROVIDERS_gmail : ProviderConfig :=
  { imap := ⟨"imap.gmail.com", 993, some true, none⟩
    smtp := ⟨"smtp.gmail.com", 587, some false, some true⟩
    password_pattern := some "^[a-z]\x7b4\x7d [a-z]\x7b4\x7d [a-z]\x7b4\x7d [a-z]\x7b4\x7d$"
    password_instructions :=
      some "Para contas Gmail, use uma Senha de Aplicativo no formato: xxxx xxxx xxxx xxxx"
    detected := none }

/-- `KNOWN_PROVIDERS['outlook']` (lines 88-91). -/
def KNOWN_PROVIDERS_outlook : ProviderConfig :=
  { imap := ⟨"outlook.office365.com", 993, some true, none⟩
    smtp := ⟨"smtp.office365.com", 587, some false, some true⟩
    password_pattern := none
    password_instructions := none
    detected := none }

/-- `KNOWN_PROVIDERS['yahoo']` (lines 92-96). -/
def KNOWN_PROVIDERS_yahoo : ProviderConfig :=
  { imap := ⟨"imap.mail.yahoo.com", 993, some true, none⟩
    smtp := ⟨"smtp.mail.yahoo.com", 587, some false, some true⟩
    password_pattern := none
    password_instructions :=
      some "Para contas Yahoo, habilite o acesso a apps e use uma senha de aplicativo"
    detected := none }

/-- The best-guess profile synthesized when nothing is detected
(app.py lines 148-153). -/
def default_provider_config (domain : String) : ProviderConfig :=
  { imap := ⟨"imap." ++ domain, 993, some true, none⟩
    smtp := ⟨"smtp." ++ domain, 587, some false, some true⟩
    password_pattern := none
    password_instructions := none
    detected := some "auto" }

/-- The outcome of the `dns.resolver.resolve(domain, 'MX')` call: either the
list of exchange host names (in answer order) or a raised exception. -/
inductive MxOutcome where
  | ok (recs : List String)
  | raised (e : PyErr)
  deriving DecidableEq

/-- The email's domain, `email.split('@')[-1].lower()` (app.py line 121). -/
def email_domain (email : String) : String :=
  pyLower ((pySplit email "@").getLastD "")

/-- `detect_provider_config` (app.py lines 117-153): substring match on the
domain first; then MX inference on the first exchange record, with a raised
lookup error logged and swallowed; else the synthesized default profile. -/
def detect_provider_config (email : String) (mx : MxOutcome) : ProviderConfig :=
  let domain := email_domain email
  if pyIn "gmail" domain then KNOWN_PROVIDERS_gmail
  else if pyIn "outlook" domain || pyIn "hotmail" domain || pyIn "live" domain then
    KNOWN_PROVIDERS_outlook
  else if pyIn "yahoo" domain then KNOWN_PROVIDERS_yahoo
  else
    match mx with
    | .raised _ => default_provider_config domain
    | .ok [] => default_provider_config domain
    | .ok (r :: _) =>
      if pyIn "google" r || pyIn "gmail" r then KNOWN_PROVIDERS_gmail
      else if pyIn "outlook" r || pyIn "microsoft" r then KNOWN_PROVIDERS_outlook
      else if pyIn "yahoo" r then KNOWN_PROVIDERS_yahoo
      else default_provider_config domain

/-! ## app.py: network probe -/

/-- The `{success, message}` core both probes and the orchestrator read. -/
structure ProbeOutcome where
  success : Bool
  message : String
  deriving DecidableEq

/-- The outcome of `sock.connect_ex((host, port))`: an error code (0 means
connected) or a raised exception (for example a name-resolution error). -/
inductive ConnectOutcome where
  | code (n : Int)
  | raised (e : PyErr)
  deriving DecidableEq

/-- The external outcomes `test_network_connection` depends on. -/
structure NetWorld where
  sockNew : Option PyErr
  connectEx : ConnectOutcome
  deriving DecidableEq

/-- What the TCP probe did with its socket descriptor. -/
structure NetTrace where
  created : Bool
  closed : Bool
  deriving DecidableEq

/-- `test_network_connection` (app.py lines 179-211) with an explicit trace of
socket creation and closing.  The source closes the socket right after
`connect_ex` returns; the surrounding `try` block returns the generic error
result when any step raises. -/
def test_network_connection (host : String) (port : Nat) (w : NetWorld) :
    ProbeOutcome × NetTrace :=
  match w.sockNew with
  | some e =>
    (⟨false, "Erro ao conectar com " ++ host ++ ":" ++ toString port ++ ": " ++ e.msg⟩,
     ⟨false, false⟩)
  | none =>
    match w.connectEx with
    | .raised e =>
      (⟨false, "Erro ao conectar com " ++ host ++ ":" ++ toString port ++ ": " ++ e.msg⟩,
       ⟨true, false⟩)
    | .code r =>
      if r = 0 then
        (⟨true, "Conexão com " ++ host ++ ":" ++ toString port ++ " estabelecida com sucesso"⟩,
         ⟨true, true⟩)
      else if r = 111 then
        (⟨false, "Conexão recusada por " ++ host ++ ":" ++ toString port
                   ++ " - verifique se o servidor está online"⟩,
         ⟨true, true⟩)
      else if r = 110 ∨ r = 10060 then
        (⟨false, "Tempo limite excedido ao conectar a " ++ host ++ ":" ++ toString port⟩,
         ⟨true, true⟩)
      else
        (⟨false, "Não foi possível conectar a " ++ host ++ ":" ++ toString port
                   ++ " - Erro: " ++ toString r⟩,
         ⟨true, true⟩)

/-! ## app.py: IMAP handshake driver -/

/-- One entry of the `imap.list()` reply: a bytes entry that decodes as UTF-8,
a bytes entry whose decode raises, or a non-bytes entry (skipped by the
`isinstance(mailbox, bytes)` check). -/
inductive MailboxEntry where
  | bytesOk (s : String)
  | bytesBad
  | nonBytes
  deriving DecidableEq

/-- The mailbox-name extraction applied to one listing entry (app.py lines
257-267): decode, split on the literal delimiter fragment, and keep the
second piece with surrounding double quotes stripped; everything else is
silently skipped. -/
def parse_mailbox (e : MailboxEntry) : Option String :=
  match e with
  | .bytesOk s =>
    match pySplit s " \".\" " with
    | _ :: p1 :: _ => some (pyStripChar p1 quoteChar)
    | _ => none
  | .bytesBad => none
  | .nonBytes => none

/-- The per-protocol result dictionary of `test_imap_connection`. -/
structure ImapResult where
  success : Bool
  message : String
  stage : String
  error_type : Option String
  solutions : Option (List String)
  mailboxes : Option (List String)
  diagnostic_info : Option Sanitized
  details : Option ProbeOutcome
  deriving DecidableEq

/-- The external outcomes `test_imap_connection` depends on: the two probe
results and the outcome of each protocol step (`none` = the step returned,
`some e` = it raised `e`). -/
structure ImapWorld where
  dns : ProbeOutcome
  net : ProbeOutcome
  connect : Option PyErr
  login : Option PyErr
  listExc : Option PyErr
  listStatus : String
  listData : List MailboxEntry
  selectExc : Option PyErr
  logoutExc : Option PyErr
  deriving DecidableEq

/-- The driver's result plus a trace of session handling: whether a protocol
session was opened and whether a logout was attempted before returning. -/
structure ImapOutcome where
  result : ImapResult
  sessionOpened : Bool
  logoutAttempted : Bool
  deriving DecidableEq

/-- The exception handlers of `test_imap_connection` (app.py lines 285-343):
`imaplib.IMAP4.error` splits on the diagnosed kind into the authentication or
protocol stage; `ssl.SSLError` reports the ssl stage; the socket/connection
classes report the connection stage with the diagnosed kind; anything else
reports the connection stage with kind "unknown". -/
def imap_exception_result (e : PyErr) (host email : String) : ImapResult :=
  let diagnostico := sanitizar_str e host email
  if pyIsInstance e.cls .imap4Error then
    let stage :=
      if ([ "authentication", "credentials", "app_password" ] : List String).contains
           diagnostico.error_type
      then "authentication" else "protocol"
    { success := false, message := diagnostico.message, stage := stage,
      error_type := some diagnostico.error_type,
      solutions := some diagnostico.solutions, mailboxes := none,
      diagnostic_info := some diagnostico, details := none }
  else if pyIsInstance e.cls .sslError then
    { success := false, message := diagnostico.message, stage := "ssl",
      error_type := some "ssl_error", solutions := some diagnostico.solutions,
      mailboxes := none, diagnostic_info := some diagnostico, details := none }
  else if pyIsInstance e.cls .socketTimeout || pyIsInstance e.cls .osError
      || pyIsInstance e.cls .connectionRefusedError
      || pyIsInstance e.cls .connectionError then
    { success := false, message := diagnostico.message, stage := "connection",
      error_type := some diagnostico.error_type,
      solutions := some diagnostico.solutions, mailboxes := none,
      diagnostic_info := some diagnostico, details := none }
  else
    { success := false, message := diagnostico.message, stage := "connection",
      error_type := some "unknown", solutions := some diagnostico.solutions,
      mailboxes := none, diagnostic_info := some diagnostico, details := none }

/-- `test_imap_connection` (app.py lines 214-343).  DNS and TCP short-circuit;
then connect, login, list, select in order, any raise routed to the exception
handlers; the logout is attempted only after a successful select, wrapped in
a bare try/except that swallows its outcome (`w.logoutExc` is never read). -/
def test_imap_connection (email _password host : String) (port : Nat)
    (w : ImapWorld) : ImapOutcome :=
  if w.dns.success = false then
    { result := { success := false,
                  message := "Falha na resolução DNS: " ++ w.dns.message,
                  stage := "dns", error_type := none, solutions := none,
                  mailboxes := none, diagnostic_info := none, details := some w.dns },
      sessionOpened := false, logoutAttempted := false }
  else if w.net.success = false then
    { result := { success := false,
                  message := "Falha na conexão de rede: " ++ w.net.message,
                  stage := "network", error_type := none, solutions := none,
                  mailboxes := none, diagnostic_info := none, details := some w.net },
      sessionOpened := false, logoutAttempted := false }
  else
    match w.connect with
    | some e =>
      { result := imap_exception_result e host email,
        sessionOpened := false, logoutAttempted := false }
    | none =>
      match w.login with
      | some e =>
        { result := imap_exception_result e host email,
          sessionOpened := true, logoutAttempted := false }
      | none =>
        match w.listExc with
        | some e =>
          { result := imap_exception_result e host email,
            sessionOpened := true, logoutAttempted := false }
        | none =>
          let mailboxes :=
            if w.listStatus = "OK" then w.listData.filterMap parse_mailbox else []
          match w.selectExc with
          | some e =>
            { result := imap_exception_result e host email,
              sessionOpened := true, logoutAttempted := false }
          | none =>
            { result := { success := true,
                          message := "Conexão IMAP com " ++ host ++ ":"
                            ++ toString port ++ " estabelecida com sucesso",
                          stage := "authenticated", error_type := none,
                          solutions := none, mailboxes := some mailboxes,
                          diagnostic_info := none, details := none },
              sessionOpened := true, logoutAttempted := true }

/-! ## app.py: SMTP handshake driver -/

/-- The per-protocol result dictionary of `test_smtp_connection`. -/
structure SmtpResult where
  success : Bool
  message : String
  stage : String
  error_type : Option String
  error_code : Option Int
  extensions : Option (List String)
  details : Option ProbeOutcome
  deriving DecidableEq

/-- The external outcomes `test_smtp_connection` depends on. -/
structure SmtpWorld where
  dns : ProbeOutcome
  net : ProbeOutcome
  connect : Option PyErr
  ehlo1 : Option PyErr
  starttlsExc : Option PyErr
  ehlo2 : Option PyErr
  login : Option PyErr
  esmtp_features : List String
  quitExc : Option PyErr
  deriving DecidableEq

/-- The driver's result plus the session-handling trace. -/
structure SmtpOutcome where
  result : SmtpResult
  sessionOpened : Bool
  quitAttempted : Bool
  deriving DecidableEq

/-- The exception handlers of `test_smtp_connection` (app.py lines 408-436):
`SMTPAuthenticationError`, then `SMTPException`, then `ssl.SSLError`, then a
generic handler. -/
def smtp_exception_result (e : PyErr) : SmtpResult :=
  if pyIsInstance e.cls .smtpAuthenticationError then
    { success := false, message := "Falha na autenticação SMTP: " ++ e.msg,
      stage := "authentication", error_type := some "credentials",
      error_code := e.code, extensions := none, details := none }
  else if pyIsInstance e.cls .smtpException then
    { success := false, message := "Erro SMTP: " ++ e.msg, stage := "protocol",
      error_type := some "protocol_error", error_code := none,
      extensions := none, details := none }
  else if pyIsInstance e.cls .sslError then
    { success := false, message := "Erro SSL na conexão SMTP: " ++ e.msg,
      stage := "ssl", error_type := some "ssl_error", error_code := none,
      extensions := none, details := none }
  else
    { success := false, message := "Erro ao conectar via SMTP: " ++ e.msg,
      stage := "connection", error_type := some "unknown", error_code := none,
      extensions := none, details := none }

/-- Tail of `test_smtp_connection` from the login step on (app.py lines
391-406): login, read the extension list, then `smtp.quit()` — the quit is
NOT wrapped in its own try/except, so a raise from it falls to the exception
handlers and replaces the success result. -/
def smtp_login_phase (host : String) (port : Nat) (w : SmtpWorld) : SmtpOutcome :=
  match w.login with
  | some e =>
    { result := smtp_exception_result e, sessionOpened := true, quitAttempted := false }
  | none =>
    match w.quitExc with
    | some e =>
      { result := smtp_exception_result e, sessionOpened := true, quitAttempted := true }
    | none =>
      { result := { success := true,
                    message := "Conexão SMTP com " ++ host ++ ":" ++ toString port
                      ++ " estabelecida com sucesso",
                    stage := "authenticated", error_type := none, error_code := none,
                    extensions := some w.esmtp_features, details := none },
        sessionOpened := true, quitAttempted := true }

/-- `test_smtp_connection` (app.py lines 346-436).  DNS and TCP short-circuit;
then connect, first EHLO, the STARTTLS upgrade (with its second EHLO) when
`starttls` is set and `secure` is not, and the login phase. -/
def test_smtp_connection (_email _password host : String) (port : Nat)
    (secure starttls : Bool) (w : SmtpWorld) : SmtpOutcome :=
  if w.dns.success = false then
    { result := { success := false,
                  message := "Falha na resolução DNS: " ++ w.dns.message,
                  stage := "dns", error_type := none, error_code := none,
                  extensions := none, details := some w.dns },
      sessionOpened := false, quitAttempted := false }
  else if w.net.success = false then
    { result := { success := false,
                  message := "Falha na conexão de rede: " ++ w.net.message,
                  stage := "network", error_type := none, error_code := none,
                  extensions := none, details := some w.net },
      sessionOpened := false, quitAttempted := false }
  else
    match w.connect with
    | some e =>
      { result := smtp_exception_result e, sessionOpened := false, quitAttempted := false }
    | none =>
      match w.ehlo1 with
      | some e =>
        { result := smtp_exception_result e, sessionOpened := true, quitAttempted := false }
      | none =>
        if starttls && !secure then
          match w.starttlsExc with
          | some e =>
            { result := smtp_exception_result e, sessionOpened := true,
              quitAttempted := false }
          | none =>
            match w.ehlo2 with
            | some e =>
              { result := smtp_exception_result e, sessionOpened := true,
                quitAttempted := false }
            | none => smtp_login_phase host port w
        else smtp_login_phase host port w

/-! ## app.py: orchestrator result aggregation -/

/-- The overall `{success, message}` aggregation at the end of
`test_connection` (app.py lines 721-746), as a function of which tests were
requested and of the per-driver `{success, message}` cores. -/
def test_connection_overall (test_imap test_smtp : Bool)
    (imap_r smtp_r : ProbeOutcome) : Bool × String :=
  if test_imap && test_smtp then
    let s := imap_r.success && smtp_r.success
    let m :=
      if s then "Servidores IMAP e SMTP acessíveis e autenticação bem-sucedida"
      else if !imap_r.success && !smtp_r.success then
        "Falha no acesso aos servidores IMAP e SMTP"
      else if !imap_r.success then "Falha no acesso ao servidor IMAP, SMTP acessível"
      else "Falha no acesso ao servidor SMTP, IMAP acessível"
    (s, m)
  else if test_imap then (imap_r.success, imap_r.message)
  else if test_smtp then (smtp_r.success, smtp_r.message)
  else (false, "Nenhum teste solicitado")

/-- Claim C1 (code_bug evidence): the pattern table's entry mapping
"application-specific password" to the app_password kind is unreachable,
because the earlier "password" entry matches first; on the raw error text
"Application-specific password required" the classifier returns "credentials",
not "app_password". -/
theorem c1_app_password_shadowed :
    classificar_erro_imap ⟨PyExcClass.imap4Error, "Application-specific password required", none⟩
      none none = "credentials" := by decide

/-- Claim C5 (code_bug evidence): a `ConnectionRefusedError` whose text matches
none of the ordered patterns is classified "socket_error", not
"connection_refused": `ConnectionRefusedError` is a subclass of `socket.error`
(`OSError`), whose `isinstance` branch comes first, so the dedicated
`ConnectionRefusedError` branch is unreachable. -/
theorem c5_connection_refused_shadowed :
    classificar_erro_imap ⟨PyExcClass.connectionRefusedError, "", none⟩ none none
      = "socket_error" := by decide

/-- Claim C3: when both tests are requested the overall success flag is the
conjunction of the drivers' flags and the message is one of four fixed
phrasings selected by which drivers succeeded; with exactly one test requested
the overall pair equals that driver's pair; with none, the fixed
"Nenhum teste solicitado" message. -/
theorem c3_test_connection_aggregation (ri rs : ProbeOutcome) :
    ((test_connection_overall true true ri rs).1 = (ri.success && rs.success))
    ∧ ((test_connection_overall true true ri rs).2 =
        match ri.success, rs.success with
        | true, true => "Servidores IMAP e SMTP acessíveis e autenticação bem-sucedida"
        | false, false => "Falha no acesso aos servidores IMAP e SMTP"
        | false, true => "Falha no acesso ao servidor IMAP, SMTP acessível"
        | true, false => "Falha no acesso ao servidor SMTP, IMAP acessível")
    ∧ (test_connection_overall true false ri rs = (ri.success, ri.message))
    ∧ (test_connection_overall false true ri rs = (rs.success, rs.message))
    ∧ (test_connection_overall false false ri rs = (false, "Nenhum teste solicitado")) := by
  obtain ⟨si, mi⟩ := ri
  obtain ⟨ss, ms⟩ := rs
  cases si <;> cases ss <;> simp [test_connection_overall]

/-- Claim C7 counterexample: when `connect_ex` raises (here a name-resolution
error), `test_network_connection` returns through its exception handler
without closing the socket it created. -/
theorem c7_counterexample :
    ((test_network_connection "mail.example.com" 993
        ⟨none, ConnectOutcome.raised ⟨PyExcClass.generic, "gaierror", none⟩⟩).2.created = true)
    ∧ ((test_network_connection "mail.example.com" 993
        ⟨none, ConnectOutcome.raised ⟨PyExcClass.generic, "gaierror", none⟩⟩).2.closed = false) := by
  decide

/-- Claim C7 amended: the socket is created iff `socket.socket()` returns, and
it is closed before returning exactly when the connect attempt returns an
error code (including 0) rather than raising; on the raising path the created
socket is not closed. -/
theorem c7_socket_close_amended (host : String) (port : Nat) (w : NetWorld) :
    ((test_network_connection host port w).2.created = true ↔ w.sockNew = none)
    ∧ ((test_network_connection host port w).2.closed = true
        ↔ w.sockNew = none ∧ ∃ r, w.connectEx = ConnectOutcome.code r) := by
  obtain ⟨sn, ce⟩ := w
  cases sn <;> rcases ce with r | e <;> simp [test_network_connection]
  constructor <;> (repeat' split) <;> rfl

/-- Claim C2: for raw error text "Invalid credentials" with host
"imap.gmail.com" and any email (and any error class), the sanitized diagnosis
has provider "gmail", error kind "credentials", a friendly message mentioning
"Gmail" and "senha de aplicativo", and a non-empty solution list. -/
theorem c2_gmail_invalid_credentials (cls : PyExcClass) (code : Option Int)
    (email : Option String) :
    ∃ r, sanitizar_erro_imap ⟨cls, "Invalid credentials", code⟩
          (some "imap.gmail.com") email = Except.ok r
      ∧ r.provider = "gmail"
      ∧ r.error_type = "credentials"
      ∧ pyIn "Gmail" r.message = true
      ∧ pyIn "senha de aplicativo" r.message = true
      ∧ r.solutions ≠ [] := by
  refine ⟨sanitizar_core ⟨cls, "Invalid credentials", code⟩ (some "imap.gmail.com")
            (diagnosticar_com_provedor ⟨cls, "Invalid credentials", code⟩ "gmail"),
          rfl, rfl, rfl, rfl, rfl, ?_⟩
  exact List.cons_ne_nil _ _

/-- Claim C10: with `host = None` and a non-empty email, both diagnosis entry
points raise `AttributeError` (from `host.lower()` in `identificar_provedor`);
with a string host, or with host and email both absent or empty, they return
normally. -/
theorem c10_host_none_attribute_error (erro : PyErr) (email : String)
    (he : email ≠ "") :
    diagnosticar_erro_imap erro none (some email) = Except.error PyFault.attributeError
    ∧ sanitizar_erro_imap erro none (some email) = Except.error PyFault.attributeError
    ∧ (∀ (h : String) (em : Option String),
        (diagnosticar_erro_imap erro (some h) em).isOk = true
        ∧ (sanitizar_erro_imap erro (some h) em).isOk = true)
    ∧ (diagnosticar_erro_imap erro none none).isOk = true
    ∧ (sanitizar_erro_imap erro none none).isOk = true
    ∧ (diagnosticar_erro_imap erro none (some "")).isOk = true
    ∧ (sanitizar_erro_imap erro none (some "")).isOk = true := by
  have htr : pyTruthy (some email) = true := by
    simp [pyTruthy, he]
  refine ⟨?_, ?_, ?_, rfl, rfl, rfl, rfl⟩
  · simp [diagnosticar_erro_imap, pyTruthy, htr, identificar_provedor, he]
  · simp [sanitizar_erro_imap, diagnosticar_erro_imap, pyTruthy, htr, identificar_provedor, he]
  · intro h em
    constructor
    · cases hb : pyTruthy (some h) || pyTruthy em <;>
        simp [diagnosticar_erro_imap, hb, identificar_provedor, Except.isOk, Except.toBool]
    · cases hb : pyTruthy (some h) || pyTruthy em <;>
        simp [sanitizar_erro_imap, diagnosticar_erro_imap, hb, identificar_provedor, Except.isOk, Except.toBool]

/-- Witness for c10_host_none_attribute_error at a concrete error and email. -/
theorem c10_witness :
    diagnosticar_erro_imap ⟨PyExcClass.generic, "boom", none⟩ none (some "a@b.com")
      = Except.error PyFault.attributeError :=
  (c10_host_none_attribute_error ⟨PyExcClass.generic, "boom", none⟩ "a@b.com"
    (by decide)).1

/-- Claim C4: the classifier is total and deterministic — every call returns a
kind from the finite taxonomy (it cannot raise, being a total function), the
result does not depend on the ignored host/email context, and an error whose
text matches none of the ordered patterns and whose class satisfies none of
the special `isinstance` categories is classified "unknown". -/
theorem c4_classificar_total_unknown (erro : PyErr) (host email : Option String)
    (hpat : ∀ p ∈ ERROR_PATTERNS, ∀ alt ∈ p.1, pyIn alt (pyLower erro.msg) = false)
    (h1 : pyIsInstance erro.cls PyExcClass.imap4Error = false)
    (h2 : pyIsInstance erro.cls PyExcClass.sslError = false)
    (h3 : pyIsInstance erro.cls PyExcClass.socketTimeout = false)
    (h4 : pyIsInstance erro.cls PyExcClass.osError = false)
    (h5 : pyIsInstance erro.cls PyExcClass.connectionRefusedError = false) :
    (∀ (e : PyErr) (ho em : Option String), classificar_erro_imap e ho em ∈ ERROR_KINDS)
    ∧ (∀ (e : PyErr) (ho em ho2 em2 : Option String),
        classificar_erro_imap e ho em = classificar_erro_imap e ho2 em2)
    ∧ classificar_erro_imap erro host email = "unknown" := by
  refine ⟨?_, ?_, ?_⟩
  · intro e ho em
    cases hf : ERROR_PATTERNS.find? (fun pe => pe.1.any (fun alt => pyIn alt (pyLower e.msg)))
      with
    | none =>
      simp only [classificar_erro_imap, hf]
      split <;> try decide
      split <;> try decide
      split <;> try decide
      split <;> try decide
      split <;> decide
    | some pe =>
      have hmem := List.mem_of_find?_eq_some hf
      simp only [classificar_erro_imap, hf]
      fin_cases hmem <;> decide
  · intro e ho em ho2 em2
    rfl
  · have hf : ERROR_PATTERNS.find?
        (fun pe => pe.1.any (fun alt => pyIn alt (pyLower erro.msg))) = none := by
      rw [List.find?_eq_none]
      intro p hp
      simp only [List.any_eq_true, not_exists]
      intro alt
      rw [not_and]
      intro halt
      simp [hpat p hp alt halt]
    simp [classificar_erro_imap, hf, h1, h2, h3, h4, h5]

/-- Witness for c4_classificar_total_unknown: the text "hello world" matches no
pattern and a plain Exception is in none of the special categories, so the
classification is "unknown". -/
theorem c4_witness :
    classificar_erro_imap ⟨PyExcClass.generic, "hello world", none⟩ none none = "unknown" :=
  (c4_classificar_total_unknown ⟨PyExcClass.generic, "hello world", none⟩ none none
    (by decide) (by decide) (by decide) (by decide) (by decide) (by decide)).2.2

/-- Claim C8: provider resolution is total (it is a function of the email and
of the MX-lookup outcome, and a raised lookup is swallowed into the fallback
branch); for a domain matching no known-provider substring and with no usable
MX inference — lookup raised, empty answer, or a first exchange record naming
no known provider — the result is the synthesized default profile
imap.<domain>:993 implicit-TLS / smtp.<domain>:587 STARTTLS. -/
theorem c8_detect_provider_default (email : String) (mx : MxOutcome)
    (hg : pyIn "gmail" (email_domain email) = false)
    (ho : pyIn "outlook" (email_domain email) = false)
    (hh : pyIn "hotmail" (email_domain email) = false)
    (hl : pyIn "live" (email_domain email) = false)
    (hy : pyIn "yahoo" (email_domain email) = false)
    (hmx : ∀ r rest, mx = MxOutcome.ok (r :: rest) →
        pyIn "google" r = false ∧ pyIn "gmail" r = false ∧ pyIn "outlook" r = false
        ∧ pyIn "microsoft" r = false ∧ pyIn "yahoo" r = false) :
    detect_provider_config email mx = default_provider_config (email_domain email) := by
  rcases mx with recs | e
  · rcases recs with _ | ⟨r, rest⟩
    · simp [detect_provider_config, hg, ho, hh, hl, hy]
    · obtain ⟨m1, m2, m3, m4, m5⟩ := hmx r rest rfl
      simp [detect_provider_config, hg, ho, hh, hl, hy, m1, m2, m3, m4, m5]
  · simp [detect_provider_config, hg, ho, hh, hl, hy]

/-- Witness for c8_detect_provider_default: an unknown domain whose MX lookup
raises resolves to the synthesized default profile. -/
theorem c8_witness :
    detect_provider_config "user@unknownmailhost.example"
      (MxOutcome.raised ⟨PyExcClass.generic, "NXDOMAIN", none⟩)
      = default_provider_config (email_domain "user@unknownmailhost.example") :=
  c8_detect_provider_default "user@unknownmailhost.example"
    (MxOutcome.raised ⟨PyExcClass.generic, "NXDOMAIN", none⟩)
    (by decide) (by decide) (by decide) (by decide) (by decide)
    (fun r rest h => by simp at h)

/-- Claim C9 counterexample: a listing entry that decodes perfectly well but
uses "/" as its hierarchy delimiter is silently dropped by the mailbox parser
(its decoded text lacks the hard-coded delimiter fragment), contradicting the
claim that only undecodable entries are skipped. -/
theorem c9_counterexample :
    parse_mailbox (MailboxEntry.bytesOk "(\\HasNoChildren) \"/\" \"INBOX\"") = none := by
  decide

/-- Claim C9 amended: an entry contributes a folder name iff it is a bytes
entry that decodes AND its decoded text contains the literal delimiter
fragment; the contributed name is the second split piece with surrounding
double quotes stripped; undecodable, non-bytes, and delimiterless entries are
all skipped; on the success path with an OK listing status the driver returns
exactly the entries' parses in order. -/
theorem c9_mailbox_parse_amended :
    (∀ (s : String) (p0 p1 : String) (rest : List String),
        pySplit s " \".\" " = p0 :: p1 :: rest →
        parse_mailbox (MailboxEntry.bytesOk s) = some (pyStripChar p1 quoteChar))
    ∧ (∀ s : String, (pySplit s " \".\" ").length ≤ 1 →
        parse_mailbox (MailboxEntry.bytesOk s) = none)
    ∧ parse_mailbox MailboxEntry.bytesBad = none
    ∧ parse_mailbox MailboxEntry.nonBytes = none
    ∧ (∀ (email pw host : String) (port : Nat) (w : ImapWorld),
        w.dns.success = true → w.net.success = true → w.connect = none →
        w.login = none → w.listExc = none → w.selectExc = none → w.listStatus = "OK" →
        (test_imap_connection email pw host port w).result.mailboxes
          = some (w.listData.filterMap parse_mailbox)) := by
  refine ⟨?_, ?_, rfl, rfl, ?_⟩
  · intro s p0 p1 rest hsplit
    simp [parse_mailbox, hsplit]
  · intro s hlen
    cases hsplit : pySplit s " \".\" " with
    | nil => simp [parse_mailbox, hsplit]
    | cons p0 tail =>
      cases tail with
      | nil => simp [parse_mailbox, hsplit]
      | cons p1 rest => simp [hsplit] at hlen
  · intro email pw host port w hdns hnet hcon hlog hlist hsel hstat
    simp [test_imap_connection, hdns, hnet, hcon, hlog, hlist, hsel, hstat]

/-- Witness for c9_mailbox_parse_amended: a concrete listing with one
dot-delimited entry and one undecodable entry yields exactly one folder. -/
theorem c9_witness :
    (test_imap_connection "a@b.com" "pw" "mail.b.com" 993
      { dns := ⟨true, "ok"⟩, net := ⟨true, "ok"⟩, connect := none, login := none,
        listExc := none, listStatus := "OK",
        listData := [MailboxEntry.bytesOk "(\\HasNoChildren) \".\" \"INBOX\"",
                     MailboxEntry.bytesBad],
        selectExc := none, logoutExc := none }).result.mailboxes = some ["INBOX"] :=
  Eq.trans
    (c9_mailbox_parse_amended.2.2.2.2 "a@b.com" "pw" "mail.b.com" 993
      { dns := ⟨true, "ok"⟩, net := ⟨true, "ok"⟩, connect := none, login := none,
        listExc := none, listStatus := "OK",
        listData := [MailboxEntry.bytesOk "(\\HasNoChildren) \".\" \"INBOX\"",
                     MailboxEntry.bytesBad],
        selectExc := none, logoutExc := none }
      rfl rfl rfl rfl rfl rfl rfl)
    (by decide)

/-- A world in which the IMAP session opens and the login step raises. -/
def IMAP_LOGIN_FAIL_WORLD : ImapWorld :=
  { dns := ⟨true, "ok"⟩, net := ⟨true, "ok"⟩, connect := none,
    login := some ⟨PyExcClass.imap4Error, "LOGIN failed", none⟩,
    listExc := none, listStatus := "OK", listData := [], selectExc := none,
    logoutExc := none }

/-- Claim C6 counterexample: when the login step raises after the session was
opened, the IMAP driver returns through its exception handler without
attempting any logout/close — contradicting the claim that cleanup is
attempted on every exit path after the session is opened. -/
theorem c6_counterexample :
    ((test_imap_connection "user@example.com" "pw" "mail.example.com" 993
        IMAP_LOGIN_FAIL_WORLD).sessionOpened = true)
    ∧ ((test_imap_connection "user@example.com" "pw" "mail.example.com" 993
        IMAP_LOGIN_FAIL_WORLD).logoutAttempted = false) := by
  constructor <;> rfl

/-- Claim C6 amended: cleanup is attempted only on the success path.  The IMAP
driver attempts its logout exactly when every protocol step succeeded, and
that logout's own outcome is swallowed (the result does not depend on it); the
SMTP driver attempts its quit exactly when every step up to login succeeded,
but the quit is not protected: when it raises, the exception handlers replace
the success result with a failure. -/
theorem c6_cleanup_amended :
    (∀ (email pw host : String) (port : Nat) (w : ImapWorld),
        (test_imap_connection email pw host port w).logoutAttempted
          = (w.dns.success && w.net.success && w.connect.isNone && w.login.isNone
              && w.listExc.isNone && w.selectExc.isNone))
    ∧ (∀ (email pw host : String) (port : Nat) (w : ImapWorld) (o o' : Option PyErr),
        test_imap_connection email pw host port { w with logoutExc := o }
          = test_imap_connection email pw host port { w with logoutExc := o' })
    ∧ (∀ (email pw host : String) (port : Nat) (secure st : Bool) (w : SmtpWorld),
        (test_smtp_connection email pw host port secure st w).quitAttempted
          = (w.dns.success && w.net.success && w.connect.isNone && w.ehlo1.isNone
              && (!(st && !secure) || (w.starttlsExc.isNone && w.ehlo2.isNone))
              && w.login.isNone))
    ∧ (∀ (email pw host : String) (port : Nat) (secure st : Bool)
          (dm nm : String) (ext : List String) (e : PyErr),
        test_smtp_connection email pw host port secure st
          { dns := ⟨true, dm⟩, net := ⟨true, nm⟩, connect := none, ehlo1 := none,
            starttlsExc := none, ehlo2 := none, login := none,
            esmtp_features := ext, quitExc := some e }
          = ⟨smtp_exception_result e, true, true⟩) := by
  refine ⟨?_, ?_, ?_, ?_⟩
  · intro email pw host port w
    obtain ⟨⟨ds, dm⟩, ⟨ns, nm⟩, cn, lg, lx, ls, ld, se, lo⟩ := w
    cases ds <;> cases ns <;> cases cn <;> cases lg <;> cases lx <;> cases se <;>
      simp [test_imap_connection]
  · intro email pw host port w o o'
    obtain ⟨⟨ds, dm⟩, ⟨ns, nm⟩, cn, lg, lx, ls, ld, se, lo⟩ := w
    cases ds <;> cases ns <;> cases cn <;> cases lg <;> cases lx <;> cases se <;> rfl
  · intro email pw host port secure st w
    obtain ⟨⟨ds, dm⟩, ⟨ns, nm⟩, cn, e1, sx, e2, lg, ex, qx⟩ := w
    cases ds <;> cases ns <;> cases cn <;> cases e1 <;> cases secure <;> cases st <;>
      cases sx <;> cases e2 <;> cases lg <;> cases qx <;>
      simp [test_smtp_connection, smtp_login_phase]
  · intro email pw host port secure st dm nm ext e
    cases secure <;> cases st <;> rfl
